import Mathlib

/-!
Verification development for the GRANDPA finality-gadget test harness and the
runtime-api code generator of this repository.

The embedding models:
* topic derivation (`make_topic`, `make_commit_topic`) from
  `core/finality-grandpa/src/tests.rs`;
* the test runtime accessor (`grandpa_authorities`, `grandpa_pending_change`)
  and the gossip-stream adapter of `MessageRouting` from the same file;
* the authority-set record with its scheduling and enactment operations, the
  block-import hook and the round voting machine (their implementations are
  not among the sources at hand, only their tests and callers, so they are
  modelled from the specification and marked as such below);
* the generated `RuntimeApi` overlay commit/discard logic from
  `core/sr-api-macros/src/impl_runtime_apis.rs`.

Machine integers are modelled as `Nat` with explicit bounds where overflow
matters; Rust panics of the test harness are modelled as `Except.error`.
-/

namespace Substrate

/-! ## Little-endian byte encoding (SCALE `using_encoded` on `u64`) -/

/-- The `k`-byte little-endian encoding of `m` (low bytes first), truncating
above `256 ^ k` exactly as a fixed-width machine integer would. -/
def bytesLE : Nat → Nat → List Nat
  | 0, _ => []
  | k + 1, m => m % 256 :: bytesLE k (m / 256)

/-- SCALE encoding of a `u64`: its 8 little-endian bytes. -/
def u64ToLE (n : Nat) : List Nat := bytesLE 8 n

/-- Little-endian decoding, the left inverse of `bytesLE`. -/
def decodeLE : List Nat → Nat
  | [] => 0
  | b :: bs => b + 256 * decodeLE bs

/-! ## Topic derivation (`tests.rs`, `make_topic` / `make_commit_topic`)

A `Hash` is 32 bytes, zero-initialised by `Hash::default()`.  `make_topic`
writes the round's 8 encoded bytes at offsets 0..8 and the set id's bytes at
offsets 8..16; `make_commit_topic` writes the ASCII bytes of `"commit"` at
offsets 16..22 and the set id's bytes at offsets 24..32. -/

/-- Bytes 0..8 hold the round, bytes 8..16 the set id, the rest stay zero. -/
def make_topic (round set_id : Nat) : List Nat :=
  u64ToLE round ++ u64ToLE set_id ++ List.replicate 16 0

/-- ASCII bytes of the string `commit`. -/
def commitTag : List Nat := [99, 111, 109, 109, 105, 116]

/-- Bytes 16..22 hold the tag `commit`, bytes 24..32 the set id, the rest
stay zero. -/
def make_commit_topic (set_id : Nat) : List Nat :=
  List.replicate 16 0 ++ commitTag ++ [0, 0] ++ u64ToLE set_id

/-! ## Keys and authority ids (`keyring::Keyring`, `make_ids`) -/

/-- The named test keys used by the scenarios.  `AuthorityId` is the raw
public key of such a key; the key-to-public-key map is injective, so the key
itself serves as the authority id in this model. -/
inductive Keyring
  | alice
  | bob
  | charlie
  | dave
  | eve
  | ferdie
  | one
  | two
deriving DecidableEq, Repr

/-- Source `make_ids`: every key becomes an authority of weight 1. -/
def make_ids (keys : List Keyring) : List (Keyring × Nat) :=
  keys.map (fun key => (key, 1))

/-! ## The test runtime accessor (`TestApi` / `RuntimeApi` in `tests.rs`)

The test chain is linear, so a block's hash is modelled by its number. -/

/-- Block hashes of the linear test chain: block `n` has hash `n`. -/
abbrev BlockHash := Nat

/-- A block reference: by hash or by number (`runtime_primitives` `BlockId`). -/
inductive BlockId
  | hash (h : BlockHash)
  | number (n : Nat)
deriving DecidableEq, Repr

/-- A scheduled authority-set change: the next authority list and the number
of blocks after the trigger block at which it takes effect. -/
structure ScheduledChange where
  next_authorities : List (Keyring × Nat)
  delay : Nat
deriving DecidableEq, Repr

/-- The test runtime state: genesis authorities fixed at construction and a
map from a parent block hash to the change scheduled there
(`scheduled_changes` is a `HashMap` in the source, modelled as an
association list). -/
structure TestApi where
  genesis_authorities : List (Keyring × Nat)
  scheduled_changes : List (BlockHash × ScheduledChange)
deriving DecidableEq, Repr

/-- Source `TestApi::new`: no change is scheduled initially. -/
def TestApi.new (genesis : List (Keyring × Nat)) : TestApi :=
  { genesis_authorities := genesis, scheduled_changes := [] }

/-- Source `GrandpaApi::grandpa_authorities`: answers only at block number 0
with the construction-time list; any other block id hits the
`should generally only request genesis authorities` panic, modelled as
`Except.error`. -/
def grandpa_authorities (api : TestApi) (at_ : BlockId) :
    Except String (List (Keyring × Nat)) :=
  if at_ = BlockId.number 0 then Except.ok api.genesis_authorities
  else Except.error "should generally only request genesis authorities"

/-- Source `GrandpaApi::grandpa_pending_change`: looks the parent hash up in
the scheduled-change map; a query that is not by hash hits the
`not requested by block hash` panic, modelled as `Except.error`. -/
def grandpa_pending_change (api : TestApi) (at_ : BlockId) :
    Except String (Option ScheduledChange) :=
  match at_ with
  | BlockId.hash h => Except.ok (api.scheduled_changes.lookup h)
  | BlockId.number _ => Except.error "not requested by block hash"

/-! ## The gossip-stream adapter of `MessageRouting`

The underlying consensus-gossip stream is observed as a finite list of
events; `map_err` turns an error event into a panic of the voting task,
modelled as `Except.error` carrying the tag interpolated into the panic
message (the round, resp. the set id). -/

/-- One observation on a gossip stream: a payload, or the error the stream
ends with when it is dropped too early. -/
inductive StreamEvent (α : Type)
  | item (payload : α)
  | error
deriving DecidableEq, Repr

/-- The `map_err` adapter: payloads are relayed unchanged; the first error
event aborts the task fatally (nothing after it is ever consumed, and there
is no resubscription or retry path). -/
def relayOrFail (tag : Nat) : List (StreamEvent (List Nat)) → Except Nat (List (List Nat))
  | [] => Except.ok []
  | StreamEvent.error :: _ => Except.error tag
  | StreamEvent.item p :: rest => (relayOrFail tag rest).map (fun l => p :: l)

/-- Source `MessageRouting::messages_for`: the gossip stream under
`make_topic round set_id`, with errors turned into the fatal
`Messages for round .. dropped too early` panic carrying the round. -/
def messages_for (round set_id : Nat) (events : List (StreamEvent (List Nat))) :
    Except Nat (List (List Nat)) :=
  let _ := make_topic round set_id
  relayOrFail round events

/-- Source `MessageRouting::commit_messages`: the gossip stream under
`make_commit_topic set_id`, with errors turned into the fatal
`Commit messages for set .. dropped too early` panic carrying the set id. -/
def commit_messages (set_id : Nat) (events : List (StreamEvent (List Nat))) :
    Except Nat (List (List Nat)) :=
  let _ := make_commit_topic set_id
  relayOrFail set_id events

/-! ## Gossip state and `drop_messages` -/

/-- The per-peer gossip registry: messages keyed by their topic. -/
abbrev GossipState := List (List Nat × List Nat)

/-- Modelled from the spec: the consensus-gossip `collect_garbage` behind
`MessageRouting::drop_messages` is not among the sources at hand; section
4.2 says `drop_messages(round, set_id)` releases the resources associated
with the round's topic and is safe to call multiple times, so it removes
every message registered under `make_topic round set_id`. -/
def drop_messages (st : GossipState) (round set_id : Nat) : GossipState :=
  st.filter (fun m => m.1 ≠ make_topic round set_id)

/-! ## The authority-set record

`authorities::AuthoritySet` is not among the sources at hand (only its use
by the tests), so it is modelled from the specification, sections 3 and
4.1. -/

/-- Modelled from the spec: a pending change is the trigger block (hash and
number) together with the scheduled change (section 3). -/
structure PendingChange where
  trigger_hash : BlockHash
  trigger_number : Nat
  change : ScheduledChange
deriving DecidableEq, Repr

/-- Modelled from the spec: the persisted authority-set record — current
authority list tagged with a monotonically increasing `set_id` starting at 0,
plus the collection of pending changes (section 3). -/
structure AuthoritySet where
  set_id : Nat
  current_authorities : List (Keyring × Nat)
  pending_changes : List PendingChange
deriving DecidableEq, Repr

/-- Spec section 4.1: read-only snapshot of the current set. -/
def AuthoritySet.current (s : AuthoritySet) : Nat × List (Keyring × Nat) :=
  (s.set_id, s.current_authorities)

/-- The genesis record: `set_id = 0`, the genesis authorities, no pending
change. -/
def AuthoritySet.genesis (auths : List (Keyring × Nat)) : AuthoritySet :=
  { set_id := 0, current_authorities := auths, pending_changes := [] }

/-- Modelled from the spec: `add_pending_change` fails with `DuplicateChange`
if an equal trigger already holds a change, otherwise inserts (section
4.1). -/
def AuthoritySet.add_pending_change (s : AuthoritySet) (p : PendingChange) :
    Except String AuthoritySet :=
  if s.pending_changes.any (fun q => q.trigger_hash == p.trigger_hash) then
    Except.error "DuplicateChange"
  else
    Except.ok { s with pending_changes := s.pending_changes ++ [p] }

/-- A pending change is eligible at a finalized number once its delay has
elapsed; on the linear test chain the trigger is an ancestor of the
finalized block exactly when its number is not larger. -/
def eligibleAt (finalized_number : Nat) (p : PendingChange) : Bool :=
  decide (p.trigger_number + p.change.delay ≤ finalized_number) &&
    decide (p.trigger_number ≤ finalized_number)

/-- The earliest-triggered eligible change: minimal trigger number, ties
broken by insertion order. -/
def earliestEligible (finalized_number : Nat) (ps : List PendingChange) :
    Option PendingChange :=
  (ps.filter (eligibleAt finalized_number)).foldl
    (fun best p =>
      match best with
      | none => some p
      | some b => if p.trigger_number < b.trigger_number then some p else some b)
    none

/-- Modelled from the spec: `apply_changes_up_to` applies the
earliest-triggered eligible change, discards it, bumps `set_id`, and returns
the new state, else returns `none` and leaves the record untouched (section
4.1; on the linear test chain no fork ever prunes a pending change). -/
def AuthoritySet.apply_changes_up_to (s : AuthoritySet) (finalized_number : Nat) :
    AuthoritySet × Option (Nat × List (Keyring × Nat)) :=
  match earliestEligible finalized_number s.pending_changes with
  | none => (s, none)
  | some p =>
    let applied : AuthoritySet :=
      { set_id := s.set_id + 1
        current_authorities := p.change.next_authorities
        pending_changes := s.pending_changes.erase p }
    (applied, some (applied.set_id, applied.current_authorities))

/-! ## Block import hook and voter enactment

Modelled from the spec, sections 4.4 and 4.5: the concrete `block_import`
and `run_grandpa` are not among the sources at hand. -/

/-- Modelled from the spec: on each successfully imported block the hook
queries `grandpa_pending_change` at the block's parent and, when a change is
reported, registers it as pending with the imported block as trigger
(section 4.4).  On the linear test chain block `n` has hash `n` and parent
hash `n - 1`. -/
def import_block (api : TestApi) (s : AuthoritySet) (number : Nat) :
    Except String AuthoritySet :=
  match grandpa_pending_change api (BlockId.hash (number - 1)) with
  | Except.error e => Except.error e
  | Except.ok none => Except.ok s
  | Except.ok (some c) =>
    s.add_pending_change
      { trigger_hash := number, trigger_number := number, change := c }

/-- Importing a whole chain of block numbers in order. -/
def import_chain (api : TestApi) (s : AuthoritySet) (numbers : List Nat) :
    Except String AuthoritySet :=
  numbers.foldlM (fun st n => import_block api st n) s

/-- Modelled from the spec: upon each newly finalized block the voter
runtime invokes `apply_changes_up_to` on the record (section 4.5). -/
def on_finalized (s : AuthoritySet) (finalized_number : Nat) : AuthoritySet :=
  (s.apply_changes_up_to finalized_number).1

/-- Enacting along a whole run of finalized block numbers in order. -/
def enact_all (s : AuthoritySet) (finalized : List Nat) : AuthoritySet :=
  finalized.foldl on_finalized s

/-- The authority-set record a node persists after importing the given chain
and then finalizing it block by block.  Every node of a scenario runs this
same deterministic pipeline on the same synced chain and the same runtime
state. -/
def node_authority_record (api : TestApi) (chain : List Nat) :
    Except String AuthoritySet :=
  (import_chain api (AuthoritySet.genesis api.genesis_authorities) chain).map
    (fun s => enact_all s chain)

/-! ## The two-transition scenario (`transition_3_voters_twice_1_observer`) -/

/-- The genesis authorities of the transition scenario. -/
def peers_a : List Keyring := [Keyring.alice, Keyring.bob, Keyring.charlie]

/-- The second authority list, scheduled at block 15 with delay 4. -/
def peers_b : List Keyring := [Keyring.dave, Keyring.eve, Keyring.ferdie]

/-- The third authority list, scheduled at block 21 with delay 0. -/
def peers_c : List Keyring := [Keyring.alice, Keyring.eve, Keyring.two]

/-- The runtime state of the transition scenario: a change to `peers_b` with
delay 4 registered under the parent hash of block 15, and a change to
`peers_c` with delay 0 registered under the parent hash of block 21. -/
def scenarioC_api : TestApi :=
  { genesis_authorities := make_ids peers_a
    scheduled_changes :=
      [(14, { next_authorities := make_ids peers_b, delay := 4 }),
       (20, { next_authorities := make_ids peers_c, delay := 0 })] }

/-- The 30-block linear chain of the transition scenario. -/
def scenarioC_chain : List Nat := List.range' 1 30

/-- The record every peer persists after importing and syncing the 30-block
chain, before anything is finalized. -/
def scenarioC_after_import : Except String AuthoritySet :=
  import_chain scenarioC_api (AuthoritySet.genesis (make_ids peers_a)) scenarioC_chain

/-! ## The round voting machine and the finality stream

Modelled from the spec, sections 4.3 and 4.5: the round implementation
behind `run_grandpa` is not among the sources at hand.  The test chain is
linear, so a block is a descendant of `b` exactly when its number is at
least `b`, and the supermajority-link weight of `b` is the cumulative
weight of voters whose vote targets `b` or a higher block. -/

/-- Total voting weight of an authority list. -/
def totalWeight (auths : List (Keyring × Nat)) : Nat :=
  (auths.map Prod.snd).sum

/-- The weight of one authority (0 for a non-member). -/
def weightOf (auths : List (Keyring × Nat)) (a : Keyring) : Nat :=
  (auths.lookup a).getD 0

/-- Equivocation handling, spec section 4.3: only the first-seen vote of
each authority in a stage is tallied; its further votes are ignored. -/
def acceptedVotes : List (Keyring × Nat) → List (Keyring × Nat)
  | [] => []
  | v :: vs => v :: (acceptedVotes vs).filter (fun w => w.1 != v.1)

/-- Supermajority-link weight of block `b` on the linear chain: cumulative
weight of accepted votes targeting `b` or a descendant. -/
def supportWeight (auths : List (Keyring × Nat)) (votes : List (Keyring × Nat))
    (b : Nat) : Nat :=
  (((acceptedVotes votes).filter (fun v => decide (b ≤ v.2))).map
    (fun v => weightOf auths v.1)).sum

/-- Strictly more than two thirds of the total weight. -/
def isSupermajority (auths : List (Keyring × Nat)) (support : Nat) : Bool :=
  decide (2 * totalWeight auths < 3 * support)

/-- The ghost of a vote set: the highest block of the chain with
supermajority support (spec section 4.3). -/
def ghost (auths : List (Keyring × Nat)) (votes : List (Keyring × Nat))
    (head : Nat) : Option Nat :=
  (List.range (head + 1)).reverse.find?
    (fun b => isSupermajority auths (supportWeight auths votes b))

/-- The round's finalized output: the highest block with precommit
supermajority that is also covered by the prevote ghost (spec section
4.3). -/
def roundFinalized (auths : List (Keyring × Nat))
    (prevotes precommits : List (Keyring × Nat)) (head : Nat) : Option Nat :=
  match ghost auths prevotes head with
  | none => none
  | some g =>
    (List.range (g + 1)).reverse.find?
      (fun b => isSupermajority auths (supportWeight auths precommits b))

/-- Modelled from the spec: a node with `local_key = some k` casts exactly
one vote per stage, targeting its best chain; a node with `local_key = none`
is an observer and never casts a vote (sections 4.3, 4.5 and 6). -/
def castVotes (local_key : Option Keyring) (best : Nat) : List (Keyring × Nat) :=
  match local_key with
  | some k => [(k, best)]
  | none => []

/-- The pool of votes gossiped in a round once every configured node has
cast: the concatenation of each node's cast votes. -/
def allVotes (keys : List (Option Keyring)) (best : Nat) : List (Keyring × Nat) :=
  keys.foldr (fun k acc => castVotes k best ++ acc) []

/-- Modelled from the spec: the finality-notification stream of a node —
one notification per finalized block, in strictly increasing block-number
order, nothing skipped below the round's finalized output (sections 3 and
6).  Every node observes the same gossiped vote pool, so the stream does not
depend on which node consumes it. -/
def finalityStream (auths : List (Keyring × Nat)) (keys : List (Option Keyring))
    (head : Nat) : List Nat :=
  match roundFinalized auths (allVotes keys head) (allVotes keys head) head with
  | none => []
  | some f => List.range' 1 f

/-- The keys of the 3-voters-no-observers scenario. -/
def scenarioA_keys : List (Option Keyring) := peers_a.map some

/-- The keys of the 3-voters-plus-1-observer scenario: the same three voters
plus one node without a local key. -/
def scenarioB_keys : List (Option Keyring) := peers_a.map some ++ [none]

/-! ## The generated `RuntimeApi` overlay logic (`impl_runtime_apis.rs`)

The `OverlayedChanges` helpers live outside the sources at hand; from their
use, `commit_prospective` folds the prospective changes into the committed
ones and `discard_prospective` drops them. -/

/-- The overlay: changes already committed and prospective changes of the
calls in flight (keys and values modelled as numbers). -/
structure OverlayedChanges where
  committed : List (Nat × Nat)
  prospective : List (Nat × Nat)
deriving DecidableEq, Repr

/-- Drop every prospective change, keeping the committed ones. -/
def OverlayedChanges.discard_prospective (c : OverlayedChanges) : OverlayedChanges :=
  { c with prospective := [] }

/-- Fold the prospective changes into the committed ones. -/
def OverlayedChanges.commit_prospective (c : OverlayedChanges) : OverlayedChanges :=
  { committed := c.committed ++ c.prospective, prospective := [] }

/-- The mutable cells of the generated `RuntimeApi` struct. -/
structure RuntimeApiState where
  commit_on_success : Bool
  initialised_block : Option Nat
  changes : OverlayedChanges
deriving DecidableEq, Repr

/-- Whether an `Except` result is `ok` (the negation of Rust `is_err`). -/
def exceptOk : Except ε ρ → Bool
  | Except.ok _ => true
  | Except.error _ => false

/-- Source `RuntimeApi::commit_on_ok`: when `commit_on_success` is set, an
error discards the prospective changes and a success commits them; when it
is clear, nothing happens. -/
def commit_on_ok (s : RuntimeApiState) (res_ok : Bool) : RuntimeApiState :=
  if s.commit_on_success then
    if res_ok then { s with changes := s.changes.commit_prospective }
    else { s with changes := s.changes.discard_prospective }
  else s

/-- Source `RuntimeApi::call_api_at`: the underlying call (abstracted as
`inner`) reads and rewrites the overlay and the initialised block, then
`commit_on_ok` runs on the call's result. -/
def call_api_at
    (inner : OverlayedChanges → Option Nat → Except ε ρ × OverlayedChanges × Option Nat)
    (s : RuntimeApiState) : Except ε ρ × RuntimeApiState :=
  let r := inner s.changes s.initialised_block
  let s1 : RuntimeApiState :=
    { s with changes := r.2.1, initialised_block := r.2.2 }
  (r.1, commit_on_ok s1 (exceptOk r.1))

/-- Source `ApiExt::map_api_result` of the generated impl: clear
`commit_on_success`, run the mapped call, set `commit_on_success` back, then
a single `commit_on_ok` on the mapped call's result. -/
def map_api_result (map_call : RuntimeApiState → Except ε ρ × RuntimeApiState)
    (s : RuntimeApiState) : Except ε ρ × RuntimeApiState :=
  let s1 : RuntimeApiState := { s with commit_on_success := false }
  let r := map_call s1
  let s2 : RuntimeApiState := { r.2 with commit_on_success := true }
  (r.1, commit_on_ok s2 (exceptOk r.1))

/-! ## Concrete scenario values used in the theorems below -/

/-- The record every peer holds after import of the 30-block chain: genesis
set still current, both changes pending. -/
def scenarioC_imported_record : AuthoritySet :=
  { set_id := 0
    current_authorities := make_ids peers_a
    pending_changes :=
      [{ trigger_hash := 15, trigger_number := 15
         change := { next_authorities := make_ids peers_b, delay := 4 } },
       { trigger_hash := 21, trigger_number := 21
         change := { next_authorities := make_ids peers_c, delay := 0 } }] }

/-- The record every peer persists once block 30 is finalized. -/
def scenarioC_final_record : AuthoritySet :=
  { set_id := 2, current_authorities := make_ids peers_c, pending_changes := [] }

/-- The finality stream each node of the 3-voter scenario observes; every
node receives the same gossiped vote pool, so the streams coincide. -/
def scenarioA_stream : List Nat :=
  finalityStream (make_ids peers_a) scenarioA_keys 20

/-- The finality stream each node (the observer included) of the
3-voters-plus-1-observer scenario observes. -/
def scenarioB_stream : List Nat :=
  finalityStream (make_ids peers_a) scenarioB_keys 20

/-- A record with one pending change that is not yet eligible at low
finalized numbers; used to exhibit idempotence concretely. -/
def c7_pending_set : AuthoritySet :=
  { set_id := 0
    current_authorities := make_ids peers_a
    pending_changes :=
      [{ trigger_hash := 15, trigger_number := 15
         change := { next_authorities := make_ids peers_b, delay := 4 } }] }

/-- A concrete failing runtime call: it stages a prospective write and
returns an error. -/
def c10_inner_err :
    OverlayedChanges → Option Nat → Except Nat Nat × OverlayedChanges × Option Nat :=
  fun c ib => (Except.error 0, { c with prospective := c.prospective ++ [(1, 1)] }, ib)

/-- A concrete api state: per-call committing enabled, one committed write,
no prospective write. -/
def c10_state0 : RuntimeApiState :=
  { commit_on_success := true
    initialised_block := none
    changes := { committed := [(0, 5)], prospective := [] } }

/-! # Theorems -/

/-! ## Byte-encoding lemmas -/

theorem bytesLE_length (k m : Nat) : (bytesLE k m).length = k := by
  induction k generalizing m with
  | zero => rfl
  | succ k ih => simp [bytesLE, ih]

theorem decodeLE_bytesLE (k m : Nat) (h : m < 256 ^ k) :
    decodeLE (bytesLE k m) = m := by
  induction k generalizing m with
  | zero =>
    interval_cases m
    rfl
  | succ k ih =>
    have hdiv : m / 256 < 256 ^ k := by
      rw [Nat.div_lt_iff_lt_mul (by norm_num : 0 < 256)]
      calc m < 256 ^ (k + 1) := h
        _ = 256 ^ k * 256 := by rw [pow_succ]
    simp only [bytesLE, decodeLE, ih _ hdiv]
    exact Nat.mod_add_div m 256

theorem u64ToLE_length (n : Nat) : (u64ToLE n).length = 8 := bytesLE_length 8 n

theorem u64ToLE_inj {a b : Nat} (ha : a < 2 ^ 64) (hb : b < 2 ^ 64)
    (h : u64ToLE a = u64ToLE b) : a = b := by
  have h256 : (2 : Nat) ^ 64 = 256 ^ 8 := by norm_num
  have := congrArg decodeLE h
  rwa [u64ToLE, u64ToLE, decodeLE_bytesLE 8 a (h256 ▸ ha),
    decodeLE_bytesLE 8 b (h256 ▸ hb)] at this

theorem make_topic_inj {r s r' s' : Nat} (hr : r < 2 ^ 64) (hs : s < 2 ^ 64)
    (hr' : r' < 2 ^ 64) (hs' : s' < 2 ^ 64)
    (h : make_topic r s = make_topic r' s') : r = r' ∧ s = s' := by
  unfold make_topic at h
  rw [List.append_assoc, List.append_assoc (u64ToLE r')] at h
  have htake := congrArg (List.take 8) h
  rw [List.take_left' (u64ToLE_length r), List.take_left' (u64ToLE_length r')] at htake
  have hdrop := congrArg (List.drop 8) h
  rw [List.drop_left' (u64ToLE_length r), List.drop_left' (u64ToLE_length r')] at hdrop
  have htake2 := congrArg (List.take 8) hdrop
  rw [List.take_left' (u64ToLE_length s), List.take_left' (u64ToLE_length s')] at htake2
  exact ⟨u64ToLE_inj hr hr' htake, u64ToLE_inj hs hs' htake2⟩

theorem make_topic_ne_commit_topic (r s s' : Nat) :
    make_topic r s ≠ make_commit_topic s' := by
  intro h
  have hd := congrArg (List.drop 16) h
  have hlen : (u64ToLE r ++ u64ToLE s).length = 16 := by
    rw [List.length_append, u64ToLE_length, u64ToLE_length]
  rw [make_topic, List.drop_left' hlen, make_commit_topic,
    List.append_assoc, List.append_assoc,
    List.drop_left' (List.length_replicate 16 0)] at hd
  -- byte 16 of a round topic is 0 but the first byte of the commit tag is 99
  simp [commitTag, List.replicate] at hd

theorem make_commit_topic_inj {s s' : Nat} (hs : s < 2 ^ 64) (hs' : s' < 2 ^ 64)
    (h : make_commit_topic s = make_commit_topic s') : s = s' := by
  unfold make_commit_topic at h
  have hlen : (List.replicate 16 (0 : Nat) ++ commitTag ++ [0, 0]).length = 24 := by
    simp [commitTag]
  have hd := congrArg (List.drop 24) h
  rw [List.drop_left' hlen, List.drop_left' hlen] at hd
  exact u64ToLE_inj hs hs' hd

/-! ## Claim C3 -/

/-- C3: topic derivation is collision-free — `make_topic` is injective on
pairs `(round, set_id)` of `u64` values, `make_commit_topic` is injective in
`set_id`, and no round topic ever equals a commit topic. -/
theorem c3_topic_collision_free :
    (∀ r s r' s' : Nat, r < 2 ^ 64 → s < 2 ^ 64 → r' < 2 ^ 64 → s' < 2 ^ 64 →
      (r, s) ≠ (r', s') → make_topic r s ≠ make_topic r' s') ∧
    (∀ s s' : Nat, s < 2 ^ 64 → s' < 2 ^ 64 → s ≠ s' →
      make_commit_topic s ≠ make_commit_topic s') ∧
    (∀ r s s' : Nat, make_topic r s ≠ make_commit_topic s') := by
  refine ⟨?_, ?_, make_topic_ne_commit_topic⟩
  · intro r s r' s' hr hs hr' hs' hne h
    obtain ⟨h1, h2⟩ := make_topic_inj hr hs hr' hs' h
    exact hne (by rw [h1, h2])
  · intro s s' hs hs' hne h
    exact hne (make_commit_topic_inj hs hs' h)

/-- Witness for C3 at concrete rounds and set ids. -/
theorem c3_topic_collision_free_witness :
    ((1, 2) : Nat × Nat) ≠ (3, 2) ∧ make_topic 1 2 ≠ make_topic 3 2 ∧
    (4 : Nat) ≠ 5 ∧ make_commit_topic 4 ≠ make_commit_topic 5 ∧
    make_topic 6 7 ≠ make_commit_topic 7 :=
  ⟨by decide,
    c3_topic_collision_free.1 1 2 3 2 (by norm_num) (by norm_num) (by norm_num)
      (by norm_num) (by decide),
    by decide,
    c3_topic_collision_free.2.1 4 5 (by norm_num) (by norm_num) (by decide),
    c3_topic_collision_free.2.2 6 7 7⟩

/-! ## Claim C8 -/

/-- C8: the runtime accessor answers exactly at block number 0 with the
construction-time genesis authority list, and fails (the panic of the test
api, modelled as an error) on every other block id. -/
theorem c8_genesis_authorities_contract :
    (∀ api : TestApi,
      grandpa_authorities api (BlockId.number 0) = Except.ok api.genesis_authorities) ∧
    (∀ genesis : List (Keyring × Nat),
      grandpa_authorities (TestApi.new genesis) (BlockId.number 0) = Except.ok genesis) ∧
    (∀ (api : TestApi) (at_ : BlockId), at_ ≠ BlockId.number 0 →
      grandpa_authorities api at_ =
        Except.error "should generally only request genesis authorities") := by
  refine ⟨fun api => by simp [grandpa_authorities],
    fun genesis => by simp [grandpa_authorities, TestApi.new], ?_⟩
  intro api at_ h
  simp [grandpa_authorities, h]

/-- Witness for C8: a query at block number 3 is rejected. -/
theorem c8_genesis_authorities_contract_witness :
    BlockId.number 3 ≠ BlockId.number 0 ∧
    grandpa_authorities (TestApi.new (make_ids peers_a)) (BlockId.number 3) =
      Except.error "should generally only request genesis authorities" :=
  ⟨by decide,
    c8_genesis_authorities_contract.2.2 (TestApi.new (make_ids peers_a))
      (BlockId.number 3) (by decide)⟩

/-! ## Claim C9 -/

/-- C9: `grandpa_pending_change` queried by hash answers with exactly the
change registered under that hash (`some` when one is registered, `none`
otherwise), and every query that is not by hash is rejected. -/
theorem c9_pending_change_contract :
    (∀ (api : TestApi) (h : BlockHash),
      grandpa_pending_change api (BlockId.hash h) =
        Except.ok (api.scheduled_changes.lookup h)) ∧
    (∀ (api : TestApi) (h : BlockHash) (c : ScheduledChange),
      grandpa_pending_change api (BlockId.hash h) = Except.ok (some c) ↔
        api.scheduled_changes.lookup h = some c) ∧
    (∀ (api : TestApi) (h : BlockHash),
      grandpa_pending_change api (BlockId.hash h) = Except.ok none ↔
        api.scheduled_changes.lookup h = none) ∧
    (∀ (api : TestApi) (n : Nat),
      grandpa_pending_change api (BlockId.number n) =
        Except.error "not requested by block hash") := by
  refine ⟨fun api h => rfl, ?_, ?_, fun api n => rfl⟩
  · intro api h c
    simp [grandpa_pending_change]
  · intro api h
    simp [grandpa_pending_change]

/-- Witness for C9 at the transition scenario's runtime state: hash 14
holds the first scheduled change, hash 7 holds none. -/
theorem c9_pending_change_contract_witness :
    grandpa_pending_change scenarioC_api (BlockId.hash 14) =
      Except.ok (scenarioC_api.scheduled_changes.lookup 14) ∧
    grandpa_pending_change scenarioC_api (BlockId.hash 7) = Except.ok none ∧
    grandpa_pending_change scenarioC_api (BlockId.number 14) =
      Except.error "not requested by block hash" :=
  ⟨c9_pending_change_contract.1 scenarioC_api 14,
    (c9_pending_change_contract.2.2.1 scenarioC_api 7).mpr (by decide),
    c9_pending_change_contract.2.2.2 scenarioC_api 14⟩

/-! ## Claim C6 -/

theorem relayOrFail_append_error (tag : Nat)
    (pre post : List (StreamEvent (List Nat)))
    (hpre : ∀ e ∈ pre, e ≠ StreamEvent.error) :
    relayOrFail tag (pre ++ StreamEvent.error :: post) = Except.error tag := by
  induction pre with
  | nil => rfl
  | cons e pre ih =>
    match e with
    | StreamEvent.error => exact absurd rfl (hpre _ (List.mem_cons_self _ _))
    | StreamEvent.item p =>
      have h := ih (fun x hx => hpre x (List.mem_cons_of_mem _ hx))
      simp [relayOrFail, h, Except.map]

theorem relayOrFail_ok_no_error {tag : Nat}
    {events : List (StreamEvent (List Nat))} {msgs : List (List Nat)}
    (h : relayOrFail tag events = Except.ok msgs) :
    StreamEvent.error ∉ events := by
  induction events generalizing msgs with
  | nil => simp
  | cons e rest ih =>
    match e with
    | StreamEvent.error => simp [relayOrFail] at h
    | StreamEvent.item p =>
      simp only [relayOrFail] at h
      cases hr : relayOrFail tag rest with
      | ok l =>
        intro hmem
        rcases List.mem_cons.mp hmem with hc | hc
        · exact StreamEvent.noConfusion hc
        · exact ih hr hc
      | error t => rw [hr] at h; exact Except.noConfusion h

/-- C6: a gossip stream that ends with an error before the consumer is done
is fatal — `messages_for` and `commit_messages` turn the error into the
hard failure carrying the round (resp. set id), they never deliver a result
past it, and a run that ends successfully can never have contained an
error (no silent resubscription or retry path exists). -/
theorem c6_premature_stream_end_fatal :
    (∀ (round set_id : Nat) (pre post : List (StreamEvent (List Nat))),
      (∀ e ∈ pre, e ≠ StreamEvent.error) →
      messages_for round set_id (pre ++ StreamEvent.error :: post) =
        Except.error round) ∧
    (∀ (set_id : Nat) (pre post : List (StreamEvent (List Nat))),
      (∀ e ∈ pre, e ≠ StreamEvent.error) →
      commit_messages set_id (pre ++ StreamEvent.error :: post) =
        Except.error set_id) ∧
    (∀ (round set_id : Nat) (events : List (StreamEvent (List Nat)))
      (msgs : List (List Nat)),
      messages_for round set_id events = Except.ok msgs →
      StreamEvent.error ∉ events) := by
  refine ⟨?_, ?_, ?_⟩
  · intro round set_id pre post hpre
    exact relayOrFail_append_error round pre post hpre
  · intro set_id pre post hpre
    exact relayOrFail_append_error set_id pre post hpre
  · intro round set_id events msgs h
    exact relayOrFail_ok_no_error h

/-- Witness for C6: a stream with one payload and then an error aborts the
round-3 task fatally. -/
theorem c6_premature_stream_end_fatal_witness :
    (∀ e ∈ ([StreamEvent.item [1]] : List (StreamEvent (List Nat))),
      e ≠ StreamEvent.error) ∧
    messages_for 3 0 [StreamEvent.item [1], StreamEvent.error] = Except.error 3 ∧
    commit_messages 0 [StreamEvent.item [1], StreamEvent.error] = Except.error 0 :=
  ⟨by decide,
    c6_premature_stream_end_fatal.1 3 0 [StreamEvent.item [1]] [] (by decide),
    c6_premature_stream_end_fatal.2.1 0 [StreamEvent.item [1]] [] (by decide)⟩

/-! ## Claim C7 -/

theorem filter_self_idem {α : Type} (p : α → Bool) (l : List α) :
    (l.filter p).filter p = l.filter p := by
  induction l with
  | nil => rfl
  | cons a l ih => cases h : p a <;> simp [List.filter_cons, h, ih]

/-- C7: `drop_messages` is idempotent on the gossip state, and
`apply_changes_up_to` with no eligible pending change leaves the record
untouched, so repeating it observes the same state as calling it once. -/
theorem c7_drop_messages_apply_changes_idempotent :
    (∀ (st : GossipState) (round set_id : Nat),
      drop_messages (drop_messages st round set_id) round set_id =
        drop_messages st round set_id) ∧
    (∀ (s : AuthoritySet) (finalized_number : Nat),
      earliestEligible finalized_number s.pending_changes = none →
      (s.apply_changes_up_to finalized_number).1 = s ∧
      ((s.apply_changes_up_to finalized_number).1.apply_changes_up_to
        finalized_number).1 = (s.apply_changes_up_to finalized_number).1) := by
  constructor
  · intro st round set_id
    exact filter_self_idem _ st
  · intro s finalized_number h
    have h1 : (s.apply_changes_up_to finalized_number).1 = s := by
      simp [AuthoritySet.apply_changes_up_to, h]
    exact ⟨h1, by rw [h1, h1]⟩

/-- Witness for C7: with one pending change of trigger 15 and delay 4,
nothing is eligible at finalized number 3 and enactment is idempotent. -/
theorem c7_drop_messages_apply_changes_idempotent_witness :
    earliestEligible 3 c7_pending_set.pending_changes = none ∧
    ((c7_pending_set.apply_changes_up_to 3).1.apply_changes_up_to 3).1 =
      (c7_pending_set.apply_changes_up_to 3).1 :=
  ⟨by decide,
    (c7_drop_messages_apply_changes_idempotent.2 c7_pending_set 3 (by decide)).2⟩

/-! ## Claim C2 -/

theorem add_pending_change_keeps_current {s : AuthoritySet} {p : PendingChange}
    {s' : AuthoritySet} (h : s.add_pending_change p = Except.ok s') :
    s'.current = s.current := by
  unfold AuthoritySet.add_pending_change at h
  split at h
  · exact Except.noConfusion h
  · cases h
    rfl

theorem import_block_keeps_current {api : TestApi} {s : AuthoritySet} {n : Nat}
    {s' : AuthoritySet} (h : import_block api s n = Except.ok s') :
    s'.current = s.current := by
  unfold import_block at h
  cases hl : api.scheduled_changes.lookup (n - 1) with
  | none =>
    simp only [grandpa_pending_change, hl] at h
    cases h
    rfl
  | some c =>
    simp only [grandpa_pending_change, hl] at h
    exact add_pending_change_keeps_current h

theorem import_chain_keeps_current {api : TestApi} {ns : List Nat} :
    ∀ {s s' : AuthoritySet}, import_chain api s ns = Except.ok s' →
      s'.current = s.current := by
  induction ns with
  | nil =>
    intro s s' h
    cases h
    rfl
  | cons n ns ih =>
    intro s s' h
    rw [import_chain, List.foldlM_cons] at h
    cases hb : import_block api s n with
    | error e => rw [hb] at h; exact Except.noConfusion h
    | ok s1 =>
      rw [hb] at h
      have h2 : import_chain api s1 ns = Except.ok s' := h
      rw [ih h2]
      exact import_block_keeps_current hb

/-- C2: block import only schedules changes and never enacts them — the
current set of an authority-set record is invariant under importing any
chain, and after importing and syncing the 30-block two-transition chain
every peer's record still shows `set_id = 0` with the genesis authorities
and exactly the 2 pending changes. -/
theorem c2_import_schedules_never_enacts :
    (∀ (api : TestApi) (s : AuthoritySet) (ns : List Nat) (s' : AuthoritySet),
      import_chain api s ns = Except.ok s' → s'.current = s.current) ∧
    scenarioC_after_import = Except.ok scenarioC_imported_record ∧
    scenarioC_imported_record.current = (0, make_ids peers_a) ∧
    scenarioC_imported_record.pending_changes.length = 2 := by
  exact ⟨fun api s ns s' h => import_chain_keeps_current h, rfl, rfl, rfl⟩

/-- Witness for C2: the two-transition import itself. -/
theorem c2_import_schedules_never_enacts_witness :
    import_chain scenarioC_api (AuthoritySet.genesis (make_ids peers_a))
      scenarioC_chain = Except.ok scenarioC_imported_record ∧
    scenarioC_imported_record.current =
      (AuthoritySet.genesis (make_ids peers_a)).current :=
  ⟨rfl,
    c2_import_schedules_never_enacts.1 scenarioC_api
      (AuthoritySet.genesis (make_ids peers_a)) scenarioC_chain
      scenarioC_imported_record rfl⟩

/-! ## Claim C1 -/

/-- C1: in the two-transition scenario — a 30-block chain with a change to
`peers_b` scheduled at block 15 with delay 4 and a change to `peers_c` at
block 21 with delay 0 — importing the chain and then finalizing it block by
block up to 30 leaves every node's persisted record at `set_id = 2` with
the third authority list current and no pending change left.  Every node of
the scenario runs this same deterministic pipeline on the same synced chain
and runtime state, so every node persists this record. -/
theorem c1_two_transition_final_record :
    node_authority_record scenarioC_api scenarioC_chain =
      Except.ok scenarioC_final_record ∧
    scenarioC_final_record.current = (2, make_ids peers_c) ∧
    scenarioC_final_record.pending_changes = [] := by
  exact ⟨rfl, rfl, rfl⟩

/-! ## Claim C4 -/

/-- C4: with 3 equally-weighted voters and a pre-synced linear chain of 20
blocks, the round reaches supermajority on block 20 and every node's
finality stream notifies block 20 with no earlier block number skipped —
the stream is exactly the blocks 1 to 20 in strictly increasing order.
All three nodes observe the same gossiped vote pool, so their streams all
equal `scenarioA_stream`. -/
theorem c4_three_voters_finalize_20 :
    roundFinalized (make_ids peers_a) (allVotes scenarioA_keys 20)
      (allVotes scenarioA_keys 20) 20 = some 20 ∧
    scenarioA_stream = List.range' 1 20 ∧
    (20 : Nat) ∈ scenarioA_stream ∧
    (∀ b : Nat, 0 < b → b ≤ 20 → b ∈ scenarioA_stream) ∧
    scenarioA_stream.Sorted (· < ·) := by
  have hstream : scenarioA_stream = List.range' 1 20 := by decide
  refine ⟨by decide, hstream, by decide, ?_, ?_⟩
  · intro b hb1 hb2
    rw [hstream, List.mem_range'_1]
    omega
  · rw [hstream]
    decide

/-- Witness for C4: block 7 is not skipped. -/
theorem c4_three_voters_finalize_20_witness :
    (0 : Nat) < 7 ∧ (7 : Nat) ≤ 20 ∧ (7 : Nat) ∈ scenarioA_stream :=
  ⟨by decide, by decide,
    c4_three_voters_finalize_20.2.2.2.1 7 (by decide) (by decide)⟩

/-! ## Claim C5 -/

/-- C5: a node configured without a local key is an observer — it casts no
prevote and no precommit at any best-chain target — yet in the
3-voters-plus-1-observer scenario its finality stream still notifies block
20, derived from the three voters' supermajority alone. -/
theorem c5_observer_casts_nothing_still_finalizes :
    (∀ best : Nat, castVotes none best = []) ∧
    scenarioB_keys.getLast? = some none ∧
    allVotes scenarioB_keys 20 = allVotes scenarioA_keys 20 ∧
    scenarioB_stream = List.range' 1 20 ∧
    (20 : Nat) ∈ scenarioB_stream := by
  exact ⟨fun best => rfl, rfl, by decide, by decide, by decide⟩

/-! ## Claim C10 -/

/-- C10: the generated `RuntimeApi` applies overlay changes atomically per
call.  With `commit_on_success` set, a failing call discards every
prospective change (leaving the overlay as before the call) and a
successful call commits them; inside `map_api_result` the per-call
commit/discard is suspended (the inner `commit_on_ok` is a no-op) and a
single commit-or-discard happens at the end based on the mapped call's
result. -/
theorem c10_overlay_commit_atomic :
    (∀ (ε ρ : Type)
      (inner : OverlayedChanges → Option Nat → Except ε ρ × OverlayedChanges × Option Nat)
      (s : RuntimeApiState),
      s.commit_on_success = true →
      (inner s.changes s.initialised_block).2.1.committed = s.changes.committed →
      s.changes.prospective = [] →
      exceptOk (inner s.changes s.initialised_block).1 = false →
      (call_api_at inner s).2.changes = s.changes) ∧
    (∀ (ε ρ : Type)
      (inner : OverlayedChanges → Option Nat → Except ε ρ × OverlayedChanges × Option Nat)
      (s : RuntimeApiState),
      s.commit_on_success = true →
      exceptOk (inner s.changes s.initialised_block).1 = true →
      (call_api_at inner s).2.changes =
        OverlayedChanges.commit_prospective (inner s.changes s.initialised_block).2.1) ∧
    (∀ (ε ρ : Type)
      (inner : OverlayedChanges → Option Nat → Except ε ρ × OverlayedChanges × Option Nat)
      (s : RuntimeApiState),
      (call_api_at inner { s with commit_on_success := false }).2.changes =
        (inner s.changes s.initialised_block).2.1) ∧
    (∀ (ε ρ : Type) (map_call : RuntimeApiState → Except ε ρ × RuntimeApiState)
      (s : RuntimeApiState),
      (map_api_result map_call s).2.commit_on_success = true ∧
      (map_api_result map_call s).2.changes =
        (if exceptOk (map_call { s with commit_on_success := false }).1 then
          OverlayedChanges.commit_prospective
            (map_call { s with commit_on_success := false }).2.changes
        else
          OverlayedChanges.discard_prospective
            (map_call { s with commit_on_success := false }).2.changes)) := by
  refine ⟨?_, ?_, ?_, ?_⟩
  · intro ε ρ inner s hflag hcom hpros hok
    simp only [call_api_at, commit_on_ok, hflag, hok, if_true, if_false,
      Bool.false_eq_true, OverlayedChanges.discard_prospective]
    rw [hcom, ← hpros]
  · intro ε ρ inner s hflag hok
    simp [call_api_at, commit_on_ok, hflag, hok]
  · intro ε ρ inner s
    simp [call_api_at, commit_on_ok]
  · intro ε ρ map_call s
    cases hok : exceptOk (map_call { s with commit_on_success := false }).1 <;>
      simp [map_api_result, commit_on_ok, hok]

/-- Witness for C10: a concrete failing call on a state with one committed
write and a clean prospective overlay leaves the overlay untouched. -/
theorem c10_overlay_commit_atomic_witness :
    c10_state0.commit_on_success = true ∧
    (c10_inner_err c10_state0.changes c10_state0.initialised_block).2.1.committed =
      c10_state0.changes.committed ∧
    c10_state0.changes.prospective = [] ∧
    exceptOk (c10_inner_err c10_state0.changes c10_state0.initialised_block).1 = false ∧
    (call_api_at c10_inner_err c10_state0).2.changes = c10_state0.changes :=
  ⟨rfl, by decide, rfl, rfl,
    c10_overlay_commit_atomic.1 Nat Nat c10_inner_err c10_state0 rfl (by decide)
      rfl rfl⟩

end Substrate
